import Mathlib

/-!
Verification of the two constraint engines of the Hindsight forecasting
game client: the cumulative-probability monotonicity engine
(`updatePrediction` in `PredictionForm`), the sum-constrained allocation
normalizer (`updateAllocationWithCashAdjust`, `updateCash`, `applyPreset`
in `AllocationSliders`), the pre-submission validation (`handleSubmit`
and the total indicator of `AllocationSliders`), and the
direction/confidence presentation wrapper (`PredictionRow`).

Probabilities are modelled as rationals, allocation percentages as
integers (the sliders step in whole percents; the arithmetic involves
subtraction, so `Int` rather than `Nat`).
-/

namespace Hindsight

/-- The `Predictions` interface of `lib/api`: four cumulative
probabilities, each conceptually in `[0,1]`. -/
structure Predictions where
  above_15pct : ℚ
  above_10pct : ℚ
  above_5pct : ℚ
  above_0pct : ℚ
deriving DecidableEq, Repr

/-- The four editable prediction fields (keys of `Predictions`). -/
inductive PredKey where
  | above_15pct
  | above_10pct
  | above_5pct
  | above_0pct
deriving DecidableEq, Repr

/-- Project the field named by a key out of a `Predictions` record. -/
def getPred (p : Predictions) : PredKey → ℚ
  | .above_15pct => p.above_15pct
  | .above_10pct => p.above_10pct
  | .above_5pct => p.above_5pct
  | .above_0pct => p.above_0pct

/-- Tightness index of a threshold: `above_15pct` is the tightest
threshold (index 0), `above_0pct` the loosest (index 3). -/
def predIdx : PredKey → Nat
  | .above_15pct => 0
  | .above_10pct => 1
  | .above_5pct => 2
  | .above_0pct => 3

/-- The monotonicity invariant maintained by the engine:
`P(>15%) ≤ P(>10%) ≤ P(>5%) ≤ P(>0%)`. -/
def Monotone4 (p : Predictions) : Prop :=
  p.above_15pct ≤ p.above_10pct ∧ p.above_10pct ≤ p.above_5pct ∧
    p.above_5pct ≤ p.above_0pct

instance (p : Predictions) : Decidable (Monotone4 p) := by
  unfold Monotone4; infer_instance

/-- All four probability fields lie in `[0,1]`. -/
def InUnit (p : Predictions) : Prop :=
  (0 ≤ p.above_15pct ∧ p.above_15pct ≤ 1) ∧
    (0 ≤ p.above_10pct ∧ p.above_10pct ≤ 1) ∧
    (0 ≤ p.above_5pct ∧ p.above_5pct ≤ 1) ∧
    (0 ≤ p.above_0pct ∧ p.above_0pct ≤ 1)

instance (p : Predictions) : Decidable (InUnit p) := by
  unfold InUnit; infer_instance

/-- `updatePrediction` of `PredictionForm`: set the edited key to
`value`, then restore monotonicity by the per-key `if/else` branches of
the source (sequential `Math.max`/`Math.min` updates on the copy). -/
def updatePrediction (predictions : Predictions) (key : PredKey)
    (value : ℚ) : Predictions :=
  match key with
  | .above_15pct =>
      let a10 := max predictions.above_10pct value
      let a5 := max predictions.above_5pct a10
      let a0 := max predictions.above_0pct a5
      { above_15pct := value, above_10pct := a10, above_5pct := a5,
        above_0pct := a0 }
  | .above_10pct =>
      let a15 := min predictions.above_15pct value
      let a5 := max predictions.above_5pct value
      let a0 := max predictions.above_0pct a5
      { above_15pct := a15, above_10pct := value, above_5pct := a5,
        above_0pct := a0 }
  | .above_5pct =>
      let a15 := min predictions.above_15pct value
      let a10 := min (max predictions.above_10pct a15) value
      let a0 := max predictions.above_0pct value
      { above_15pct := a15, above_10pct := a10, above_5pct := value,
        above_0pct := a0 }
  | .above_0pct =>
      let a15 := min predictions.above_15pct value
      let a10 := min predictions.above_10pct value
      let a5 := min predictions.above_5pct value
      { above_15pct := a15, above_10pct := a10, above_5pct := a5,
        above_0pct := value }

/-- The `Allocation` interface of `lib/api`: four portfolio percentages. -/
structure Allocation where
  stocks : ℤ
  bonds : ℤ
  cash : ℤ
  gold : ℤ
deriving DecidableEq, Repr

/-- The three non-cash allocation keys accepted by
`updateAllocationWithCashAdjust`. -/
inductive NonCashKey where
  | stocks
  | bonds
  | gold
deriving DecidableEq, Repr

/-- Any allocation key, cash included (an edit to `cash` goes through
`updateCash` instead). -/
inductive AllocKey where
  | stocks
  | bonds
  | gold
  | cash
deriving DecidableEq, Repr

/-- Project the field named by a non-cash key. -/
def getAlloc (a : Allocation) : NonCashKey → ℤ
  | .stocks => a.stocks
  | .bonds => a.bonds
  | .gold => a.gold

/-- The `otherAssets` computation of `updateAllocationWithCashAdjust`:
the sum of the two non-edited, non-cash fields. -/
def othersSum (allocation : Allocation) : NonCashKey → ℤ
  | .stocks => allocation.bonds + allocation.gold
  | .bonds => allocation.stocks + allocation.gold
  | .gold => allocation.stocks + allocation.bonds

/-- The pair of non-edited non-cash fields, used to state frame
conditions without an implication. -/
def othersPair (allocation : Allocation) : NonCashKey → ℤ × ℤ
  | .stocks => (allocation.bonds, allocation.gold)
  | .bonds => (allocation.stocks, allocation.gold)
  | .gold => (allocation.stocks, allocation.bonds)

/-- `updateAllocationWithCashAdjust` of `AllocationSliders`: cap the
edited value so the total cannot exceed 100, recompute cash as the
remainder, floored at 0. -/
def updateAllocationWithCashAdjust (allocation : Allocation)
    (key : NonCashKey) (value : ℤ) : Allocation :=
  let otherAssets := othersSum allocation key
  let maxValue := 100 - otherAssets
  let cappedValue := min value maxValue
  let newCash := 100 - cappedValue - otherAssets
  match key with
  | .stocks =>
      { allocation with stocks := cappedValue, cash := max 0 newCash }
  | .bonds =>
      { allocation with bonds := cappedValue, cash := max 0 newCash }
  | .gold =>
      { allocation with gold := cappedValue, cash := max 0 newCash }

/-- `updateCash` of `AllocationSliders`: clamp the cash edit to the room
left by the other three assets; the other three fields are untouched. -/
def updateCash (allocation : Allocation) (value : ℤ) : Allocation :=
  let otherAssets := allocation.stocks + allocation.bonds + allocation.gold
  let maxCash := 100 - otherAssets
  { allocation with cash := min value maxCash }

/-- An edit to any allocation field dispatches to the cash-adjusting
update for non-cash fields and to `updateCash` for cash, exactly as the
four `SliderRow` `onChange` handlers are wired. -/
def applyAllocationEdit (allocation : Allocation) (key : AllocKey)
    (value : ℤ) : Allocation :=
  match key with
  | .stocks => updateAllocationWithCashAdjust allocation .stocks value
  | .bonds => updateAllocationWithCashAdjust allocation .bonds value
  | .gold => updateAllocationWithCashAdjust allocation .gold value
  | .cash => updateCash allocation value

/-- `applyPreset` of `AllocationSliders`: `onChange(preset)`, the preset
vector verbatim. -/
def applyPreset (preset : Allocation) : Allocation :=
  preset

/-- The UI state transition when a preset button is clicked: the current
allocation state is replaced wholesale by `applyPreset preset`
(`onChange` is `setAllocation`), independently of the current state. -/
def presetClick (_allocation preset : Allocation) : Allocation :=
  applyPreset preset

/-- The total computed by `AllocationSliders` and `handleSubmit`:
`stocks + bonds + cash + gold`. -/
def allocationTotal (a : Allocation) : ℤ :=
  a.stocks + a.bonds + a.cash + a.gold

/-- All four allocation fields lie in `[0,100]`. -/
def InRange (a : Allocation) : Prop :=
  (0 ≤ a.stocks ∧ a.stocks ≤ 100) ∧ (0 ≤ a.bonds ∧ a.bonds ≤ 100) ∧
    (0 ≤ a.cash ∧ a.cash ≤ 100) ∧ (0 ≤ a.gold ∧ a.gold ≤ 100)

instance (a : Allocation) : Decidable (InRange a) := by
  unfold InRange; infer_instance

/-- The sum of the non-edited fields other than cash, for an edit to
`key`: for a non-cash edit this is `othersSum`; for a cash edit it is
all three non-cash fields, as in `updateCash`. -/
def nonEditedNonCashSum (a : Allocation) : AllocKey → ℤ
  | .stocks => a.bonds + a.gold
  | .bonds => a.stocks + a.gold
  | .gold => a.stocks + a.bonds
  | .cash => a.stocks + a.bonds + a.gold

/-- Result of the read-only validation: the `isValid` flag and the
signed delta `total - 100` displayed by the total indicator. -/
structure ValidationResult where
  valid : Bool
  delta : ℤ
deriving DecidableEq, Repr

/-- The validation of `AllocationSliders` (and of `handleSubmit`):
`isValid = (total == 100)` and the displayed delta `total - 100`. It
reads the vector and returns a report; it never returns an allocation. -/
def validateAllocation (a : Allocation) : ValidationResult :=
  { valid := allocationTotal a == 100, delta := allocationTotal a - 100 }

/-- The submission payload `GameCreateInput` of `lib/api`. -/
structure GameCreateInput where
  scenario_id : Nat
  predictions : Predictions
  allocation : Allocation
  rationale : String
deriving Repr

/-- `handleSubmit` of the game page: reject a rationale over 500
characters, then reject an allocation whose total is not 100; only then
is the game-creation request issued with the payload. -/
def handleSubmit (scenario_id : Nat) (predictions : Predictions)
    (allocation : Allocation) (rationale : String) :
    Except String GameCreateInput :=
  if rationale.length > 500 then
    .error "Rationale must be 500 characters or less."
  else if allocationTotal allocation ≠ 100 then
    .error "Allocations must sum to 100 percent."
  else
    .ok { scenario_id, predictions, allocation, rationale }

/-- `isYes` of `PredictionRow`: the user thinks Yes iff the stored
probability is at least 0.5. -/
def isYes (value : ℚ) : Bool :=
  decide ((1 : ℚ) / 2 ≤ value)

/-- `confidence` of `PredictionRow`: the probability itself when Yes,
its complement when No. -/
def confidence (value : ℚ) : ℚ :=
  if isYes value then value else 1 - value

/-- `handleDirectionChange` of `PredictionRow`: keep the same confidence
level, just flip the direction. -/
def handleDirectionChange (value : ℚ) (newIsYes : Bool) : ℚ :=
  if newIsYes then confidence value else 1 - confidence value

/-- Claim C1: for every `PredictionVector` whose four fields lie in
`[0,1]` and satisfy the monotonicity invariant, every edited field and
every new value `v ∈ [0,1]` (boundary values included), the probability
edit returns a vector that again satisfies
`above15 ≤ above10 ≤ above5 ≤ above0` and whose edited field equals
exactly `v`. -/
theorem updatePrediction_monotone_sets_field (p : Predictions)
    (k : PredKey) (v : ℚ) (hp : InUnit p) (hm : Monotone4 p)
    (hv : 0 ≤ v ∧ v ≤ 1) :
    Monotone4 (updatePrediction p k v) ∧
      getPred (updatePrediction p k v) k = v := by
  obtain ⟨h1, h2, h3⟩ := hm
  refine ⟨?_, ?_⟩
  · cases k <;>
      · simp only [updatePrediction, Monotone4]
        refine ⟨?_, ?_, ?_⟩ <;>
          · simp only [min_def, max_def]
            split_ifs <;> linarith
  · cases k <;> rfl

/-- Witness for C1 at the concrete monotone vector `⟨0, 0, 1, 1⟩`,
editing `above_10pct` to `1`. -/
theorem updatePrediction_monotone_sets_field_witness :
    (InUnit ⟨0, 0, 1, 1⟩ ∧ Monotone4 ⟨0, 0, 1, 1⟩ ∧
        (0:ℚ) ≤ 1 ∧ (1:ℚ) ≤ 1) ∧
      Monotone4 (updatePrediction ⟨0, 0, 1, 1⟩ .above_10pct 1) ∧
        getPred (updatePrediction ⟨0, 0, 1, 1⟩ .above_10pct 1)
          .above_10pct = 1 :=
  ⟨⟨by decide, by decide, by decide, by decide⟩,
    updatePrediction_monotone_sets_field ⟨0, 0, 1, 1⟩ .above_10pct 1
      (by decide) (by decide) ⟨by decide, by decide⟩⟩

/-- Claim C2: for every starting `AllocationVector` in which the two
non-edited non-cash fields sum to at most 100 and every `v ∈ [0,100]`,
an edit of a non-cash field (stocks, bonds or gold) returns a vector
whose four fields sum to exactly 100. -/
theorem updateAllocation_sum_invariant (a : Allocation) (k : NonCashKey)
    (v : ℤ) (hv : 0 ≤ v ∧ v ≤ 100) (ho : othersSum a k ≤ 100) :
    allocationTotal (updateAllocationWithCashAdjust a k v) = 100 := by
  obtain ⟨hv0, hv1⟩ := hv
  cases k <;>
    · simp only [updateAllocationWithCashAdjust, othersSum,
        allocationTotal] at *
      omega

/-- Witness for C2 at the concrete vector
`{stocks 60, bonds 30, cash 5, gold 5}`, editing stocks to 80. -/
theorem updateAllocation_sum_invariant_witness :
    ((0:ℤ) ≤ 80 ∧ (80:ℤ) ≤ 100 ∧ othersSum ⟨60, 30, 5, 5⟩ .stocks ≤ 100) ∧
      allocationTotal
        (updateAllocationWithCashAdjust ⟨60, 30, 5, 5⟩ .stocks 80) = 100 :=
  ⟨⟨by decide, by decide, by decide⟩,
    updateAllocation_sum_invariant ⟨60, 30, 5, 5⟩ .stocks 80
      ⟨by decide, by decide⟩ (by decide)⟩

/-- Claim C4: editing a non-cash field `k` to `v` sets `k` to
`min v (100 - others)` where `others` is the sum of the two non-edited
non-cash fields, sets cash to `max 0 (100 - clamped - others)`, leaves
the two other non-cash fields unchanged; in particular editing stocks
to 90 when bonds = 50, gold = 0, cash = 50 returns stocks = 50 and
cash = 0. -/
theorem updateAllocation_clamp_frame (a : Allocation) (k : NonCashKey)
    (v : ℤ) :
    getAlloc (updateAllocationWithCashAdjust a k v) k =
        min v (100 - othersSum a k) ∧
      (updateAllocationWithCashAdjust a k v).cash =
        max 0 (100 - min v (100 - othersSum a k) - othersSum a k) ∧
      othersPair (updateAllocationWithCashAdjust a k v) k =
        othersPair a k ∧
      updateAllocationWithCashAdjust ⟨0, 50, 50, 0⟩ .stocks 90 =
        ⟨50, 50, 0, 0⟩ := by
  refine ⟨?_, ?_, ?_, by decide⟩ <;>
    cases k <;>
      simp [updateAllocationWithCashAdjust, getAlloc, othersSum, othersPair]

/-- Claim C5: editing cash directly to `v` sets cash to
`min v (100 - (stocks + bonds + gold))` and leaves stocks, bonds and
gold exactly unchanged; the resulting sum may then be below 100 and is
not corrected: from `{stocks 60, bonds 30, gold 5, cash 5}`, editing
cash to 0 yields `{stocks 60, bonds 30, gold 5, cash 0}` with sum 95. -/
theorem updateCash_override (a : Allocation) (v : ℤ) :
    (updateCash a v).cash =
        min v (100 - (a.stocks + a.bonds + a.gold)) ∧
      (updateCash a v).stocks = a.stocks ∧
      (updateCash a v).bonds = a.bonds ∧
      (updateCash a v).gold = a.gold ∧
      updateCash ⟨60, 30, 5, 5⟩ 0 = ⟨60, 30, 0, 5⟩ ∧
      allocationTotal (updateCash ⟨60, 30, 5, 5⟩ 0) = 95 := by
  refine ⟨?_, rfl, rfl, rfl, by decide, by decide⟩
  simp [updateCash]

/-- Claim C3: on a monotonic vector, a probability edit leaves every
non-edited field that already satisfies the monotonicity constraint
against `v` unchanged, and moves each non-edited field that would
violate it exactly to the boundary value `v`, never past it: a field
tighter than the edited one becomes `min` of its old value and `v`, a
looser one `max` of its old value and `v`. The end-to-end
example is included: from `{0.3, 0.4, 0.6, 0.75}`, editing
`above_10pct` to `0.5` yields `{0.3, 0.5, 0.6, 0.75}` and editing it
to `0.7` yields `{0.3, 0.7, 0.7, 0.75}`. -/
theorem updatePrediction_minimal_disturbance (p : Predictions)
    (k : PredKey) (v : ℚ) (hm : Monotone4 p) :
    (∀ j, predIdx j < predIdx k →
        getPred (updatePrediction p k v) j = min (getPred p j) v) ∧
      (∀ j, predIdx k < predIdx j →
        getPred (updatePrediction p k v) j = max (getPred p j) v) ∧
      updatePrediction ⟨3/10, 2/5, 3/5, 3/4⟩ .above_10pct (1/2) =
        ⟨3/10, 1/2, 3/5, 3/4⟩ ∧
      updatePrediction ⟨3/10, 2/5, 3/5, 3/4⟩ .above_10pct (7/10) =
        ⟨3/10, 7/10, 7/10, 3/4⟩ := by
  obtain ⟨h1, h2, h3⟩ := hm
  refine ⟨?_, ?_, ?_, ?_⟩
  · intro j hj
    cases k <;> cases j <;> simp only [predIdx] at hj <;>
      first
      | exact absurd hj (by omega)
      | (simp only [updatePrediction, getPred, min_def, max_def];
          split_ifs <;> linarith)
      | simp only [updatePrediction, getPred, min_def, max_def]
  · intro j hj
    cases k <;> cases j <;> simp only [predIdx] at hj <;>
      first
      | exact absurd hj (by omega)
      | (simp only [updatePrediction, getPred, min_def, max_def];
          split_ifs <;> linarith)
      | simp only [updatePrediction, getPred, min_def, max_def]
  · simp only [updatePrediction, Predictions.mk.injEq, min_def, max_def]
    norm_num
  · simp only [updatePrediction, Predictions.mk.injEq, min_def, max_def]
    norm_num

/-- Witness for C3 at the concrete monotone vector `⟨0, 0, 1, 1⟩`,
editing `above_10pct` to `1` and observing the looser field
`above_5pct`. -/
theorem updatePrediction_minimal_disturbance_witness :
    Monotone4 ⟨0, 0, 1, 1⟩ ∧
      getPred (updatePrediction ⟨0, 0, 1, 1⟩ .above_10pct 1)
          .above_5pct =
        max (getPred ⟨0, 0, 1, 1⟩ .above_5pct) 1 :=
  ⟨by decide,
    (updatePrediction_minimal_disturbance ⟨0, 0, 1, 1⟩ .above_10pct 1
      (by decide)).2.1 .above_5pct (by decide)⟩

/-- Claim C6: `validateAllocation` reports valid exactly when
`stocks + bonds + gold + cash = 100`, reports `delta = total - 100`,
and when it reports invalid the submission is blocked: `handleSubmit`
never issues a game-creation request (never returns `ok`). On a vector
summing to 95 it reports `valid = false, delta = -5`. The check is
read-only by construction: it returns a report, not an allocation. -/
theorem validateAllocation_blocks_submission (a : Allocation)
    (sid : Nat) (p : Predictions) (r : String) :
    ((validateAllocation a).valid = true ↔ allocationTotal a = 100) ∧
      (validateAllocation a).delta = allocationTotal a - 100 ∧
      ((validateAllocation a).valid = false →
        ∀ g : GameCreateInput, handleSubmit sid p a r ≠ .ok g) ∧
      validateAllocation ⟨60, 30, 0, 5⟩ = ⟨false, -5⟩ := by
  refine ⟨?_, rfl, ?_, by decide⟩
  · simp [validateAllocation]
  · intro hvalid g
    have ht : allocationTotal a ≠ 100 := by
      simpa [validateAllocation] using hvalid
    unfold handleSubmit
    split_ifs <;> simp

/-- Witness for C6: at the sum-95 vector the check reports invalid and
the modelled `handleSubmit` rejects the concrete payload. -/
theorem validateAllocation_blocks_submission_witness :
    (validateAllocation ⟨60, 30, 0, 5⟩).valid = false ∧
      handleSubmit 1 ⟨0, 0, 1, 1⟩ ⟨60, 30, 0, 5⟩ "" ≠
        .ok ⟨1, ⟨0, 0, 1, 1⟩, ⟨60, 30, 0, 5⟩, ""⟩ :=
  ⟨by decide,
    (validateAllocation_blocks_submission ⟨60, 30, 0, 5⟩ 1 ⟨0, 0, 1, 1⟩
      "").2.2.1 (by decide) ⟨1, ⟨0, 0, 1, 1⟩, ⟨60, 30, 0, 5⟩, ""⟩⟩

/-- Counterexample to C7 as stated: the vector
`{stocks 0, bonds 60, cash 0, gold 60}` has every field in `[0,100]`
and the edit value 10 lies in `[0,100]`, yet editing stocks yields
`stocks = min 10 (100 - 120) = -20`, a field below 0. -/
theorem allocation_range_counterexample :
    InRange ⟨0, 60, 0, 60⟩ ∧ (0:ℤ) ≤ 10 ∧ (10:ℤ) ≤ 100 ∧
      (applyAllocationEdit ⟨0, 60, 0, 60⟩ .stocks 10).stocks = -20 ∧
      (applyAllocationEdit ⟨0, 60, 0, 60⟩ .stocks 10).stocks < 0 := by
  refine ⟨by decide, by decide, by decide, by decide, by decide⟩

/-- Claim C7 amended: for every input `AllocationVector` whose fields
each lie in `[0,100]` and whose non-edited fields other than cash sum
to at most 100 (as holds for every vector the UI can reach, since its
total never exceeds 100), and every edit value `v ∈ [0,100]`,
`applyAllocationEdit` on any field, cash included, never returns a
vector containing a field below 0 or above 100. -/
theorem applyAllocationEdit_in_range (a : Allocation) (k : AllocKey)
    (v : ℤ) (ha : InRange a) (hv : 0 ≤ v ∧ v ≤ 100)
    (ho : nonEditedNonCashSum a k ≤ 100) :
    InRange (applyAllocationEdit a k v) := by
  obtain ⟨⟨hs0, hs1⟩, ⟨hb0, hb1⟩, ⟨hc0, hc1⟩, ⟨hg0, hg1⟩⟩ := ha
  obtain ⟨hv0, hv1⟩ := hv
  cases k <;>
    · simp only [applyAllocationEdit, updateAllocationWithCashAdjust,
        updateCash, InRange, othersSum, nonEditedNonCashSum] at *
      omega

/-- Witness for amended C7 at the vector
`{stocks 60, bonds 30, cash 5, gold 5}`, editing gold to 100. -/
theorem applyAllocationEdit_in_range_witness :
    (InRange ⟨60, 30, 5, 5⟩ ∧ (0:ℤ) ≤ 100 ∧ (100:ℤ) ≤ 100 ∧
        nonEditedNonCashSum ⟨60, 30, 5, 5⟩ .gold ≤ 100) ∧
      InRange (applyAllocationEdit ⟨60, 30, 5, 5⟩ .gold 100) :=
  ⟨⟨by decide, by decide, by decide, by decide⟩,
    applyAllocationEdit_in_range ⟨60, 30, 5, 5⟩ .gold 100 (by decide)
      ⟨by decide, by decide⟩ (by decide)⟩

/-- Claim C8: a preset application is atomic and verbatim: from every
starting allocation, clicking a preset either replaces all four fields
together with exactly the values of the preset (this disjunct in fact always
holds: `applyPreset` performs no recomputation and no validation) or,
for a preset not summing to 100, leaves the state unchanged; in
particular applying `{stocks 25, bonds 25, cash 25, gold 25}` always
yields exactly that vector regardless of starting state. -/
theorem applyPreset_atomic (start preset : Allocation) :
    (presetClick start preset = preset ∨
        (allocationTotal preset ≠ 100 ∧ presetClick start preset = start)) ∧
      presetClick start ⟨25, 25, 25, 25⟩ = ⟨25, 25, 25, 25⟩ :=
  ⟨Or.inl rfl, rfl⟩

/-- Claim C9: the edit operations of both engines are idempotent:
applying the same probability edit twice in a row equals applying it
once, and likewise for every allocation edit, cash included. -/
theorem edits_idempotent :
    (∀ (p : Predictions) (k : PredKey) (v : ℚ),
        updatePrediction (updatePrediction p k v) k v =
          updatePrediction p k v) ∧
      (∀ (a : Allocation) (k : AllocKey) (v : ℤ),
        applyAllocationEdit (applyAllocationEdit a k v) k v =
          applyAllocationEdit a k v) := by
  constructor
  · intro p k v
    cases k <;>
      simp only [updatePrediction, Predictions.mk.injEq] <;>
      refine ⟨?_, ?_, ?_, ?_⟩ <;>
      simp only [min_def, max_def] <;>
      split_ifs <;>
      first
      | rfl
      | linarith
  · intro a k v
    cases k <;>
      simp only [applyAllocationEdit, updateAllocationWithCashAdjust,
        updateCash, othersSum, Allocation.mk.injEq]

/-- Claim C10: direction is decoded as Yes iff the stored probability
is at least 0.5, so at a stored probability of exactly 0.5 the derived
confidence is 0.5 and flipping the direction to No computes
`1 - 0.5 = 0.5`: the same probability, which still decodes as Yes.
Flipping direction at the 0.5 boundary is a no-op, not an involution. -/
theorem direction_flip_noop_at_half :
    isYes (1/2) = true ∧ confidence (1/2) = 1/2 ∧
      handleDirectionChange (1/2) false = 1/2 ∧
      isYes (handleDirectionChange (1/2) false) = true := by
  norm_num [isYes, confidence, handleDirectionChange]

end Hindsight
